import Mathlib

/-!
# Verification of the eCourts scraper against its specification

Shallow embedding of `ecourts_scraper.py` and `web_interface.py`
(class `ECourtsScraper` and the Flask endpoints), together with proofs
of the spec's testable properties.

Python dictionaries are embedded as ordered association lists
(`PyDict`), matching Python 3.7+ insertion-order semantics; the empty
dict `{}` is the empty list.  Stateful file-system behaviour is
embedded as explicit state passing over an `FS` record.  An exception
raised inside a `try` body is embedded as an explicit boolean
parameter on a `*_run` wrapper whose `true` branch returns exactly
what the corresponding `except` handler returns.
-/

namespace ECourts

/-- A Python scalar value as it occurs in the scraper's dicts:
a string or a boolean. -/
inductive PyVal where
  | s : String → PyVal
  | b : Bool → PyVal
deriving DecidableEq, Repr

/-- A Python dict with string keys, embedded as an ordered association
list (Python 3.7+ dicts preserve insertion order).  The empty dict
`\x7b\x7d` is `[]`. -/
abbrev PyDict := List (String × PyVal)

/-- `d.get(k)`: first value bound to `k`, if any. -/
def dictGet : PyDict → String → Option PyVal
  | [], _ => none
  | (k, v) :: rest, key => if key = k then some v else dictGet rest key

/-- One demo case record, with the exact fields of the entries of
`ECourtsScraper.demo_cases` (ecourts_scraper.py lines 41-107). -/
structure CaseRecord where
  cnr : String
  case_number : String
  case_title : String
  court_name : String
  case_type : String
  filing_date : String
  status : String
  next_hearing : String
  serial_number : String
  is_listed_today : Bool
  is_listed_tomorrow : Bool
deriving DecidableEq, Repr

/-- The Python dict a `CaseRecord` denotes, with the source's key
insertion order. -/
def caseToDict (r : CaseRecord) : PyDict :=
  [ ("cnr", PyVal.s r.cnr),
    ("case_number", PyVal.s r.case_number),
    ("case_title", PyVal.s r.case_title),
    ("court_name", PyVal.s r.court_name),
    ("case_type", PyVal.s r.case_type),
    ("filing_date", PyVal.s r.filing_date),
    ("status", PyVal.s r.status),
    ("next_hearing", PyVal.s r.next_hearing),
    ("serial_number", PyVal.s r.serial_number),
    ("is_listed_today", PyVal.b r.is_listed_today),
    ("is_listed_tomorrow", PyVal.b r.is_listed_tomorrow) ]

/-- The fixture dataset `self.demo_cases` of `ECourtsScraper.__init__`
(ecourts_scraper.py lines 41-107), as an ordered association list of
CNR key to record. -/
def demo_cases : List (String × CaseRecord) :=
  [ ("DLCT01-123456-2023",
     { cnr := "DLCT01-123456-2023"
       case_number := "12345/2023"
       case_title := "John Doe vs. Jane Smith"
       court_name := "Delhi High Court"
       case_type := "Civil"
       filing_date := "2023-01-15"
       status := "Pending"
       next_hearing := "2025-10-20"
       serial_number := "1"
       is_listed_today := true
       is_listed_tomorrow := false }),
    ("MHMC02-654321-2022",
     { cnr := "MHMC02-654321-2022"
       case_number := "65432/2022"
       case_title := "ABC Pvt Ltd vs. XYZ Traders"
       court_name := "Mumbai City Civil Court"
       case_type := "Commercial"
       filing_date := "2022-06-10"
       status := "Pending"
       next_hearing := "2025-10-21"
       serial_number := "7"
       is_listed_today := false
       is_listed_tomorrow := true }),
    ("KLER03-111222-2021",
     { cnr := "KLER03-111222-2021"
       case_number := "11122/2021"
       case_title := "State vs. Raman Nair"
       court_name := "Ernakulam District Court"
       case_type := "Criminal"
       filing_date := "2021-09-05"
       status := "Listed"
       next_hearing := "2025-10-15"
       serial_number := "15"
       is_listed_today := true
       is_listed_tomorrow := false }),
    ("TNCH04-777888-2020",
     { cnr := "TNCH04-777888-2020"
       case_number := "77788/2020"
       case_title := "Mohan vs. Housing Board"
       court_name := "Chennai City Civil Court"
       case_type := "Civil"
       filing_date := "2020-11-20"
       status := "Adjourned"
       next_hearing := "2025-10-22"
       serial_number := "23"
       is_listed_today := false
       is_listed_tomorrow := true }),
    ("RJJP05-333444-2019",
     { cnr := "RJJP05-333444-2019"
       case_number := "33344/2019"
       case_title := "Pooja Sharma vs. RTO Jaipur"
       court_name := "Jaipur District Court"
       case_type := "Motor Accident Claims"
       filing_date := "2019-03-18"
       status := "For Hearing"
       next_hearing := "2025-10-16"
       serial_number := "3"
       is_listed_today := true
       is_listed_tomorrow := false }) ]

/-- Lookup by key in an association list of case records
(the embedding of `cnr in self.demo_cases` / `self.demo_cases[cnr]`). -/
def dictLookup : List (String × CaseRecord) → String → Option CaseRecord
  | [], _ => none
  | (k, v) :: rest, key => if key = k then some v else dictLookup rest key

/-- The CNR keys of the fixture dataset. -/
def demoKeys : List String := demo_cases.map Prod.fst

/-- The records of the fixture dataset. -/
def demoRecords : List CaseRecord := demo_cases.map Prod.snd

/-- `ECourtsScraper.search_case_by_cnr` (ecourts_scraper.py lines
125-139), try-body: the fixture record's dict when `cnr` is a key of
`demo_cases`, the empty dict `\x7b\x7d` otherwise. -/
def search_case_by_cnr (cnr : String) : PyDict :=
  match dictLookup demo_cases cnr with
  | some r => caseToDict r
  | none => []

/-- `ECourtsScraper.search_case_by_cnr` including its `except` handler
(lines 137-139): an exception raised in the try body (`raises = true`)
is caught and the handler returns the empty dict `\x7b\x7d`. -/
def search_case_by_cnr_run (raises : Bool) (cnr : String) : PyDict :=
  if raises then [] else search_case_by_cnr cnr

/-- `ECourtsScraper.search_case_by_details` (ecourts_scraper.py lines
141-165), try-body: a hardcoded placeholder dict echoing the three
arguments, in the source's key order.  Note this dict has a `year` key
and no `cnr` key. -/
def search_case_by_details (case_type case_number year : String) : PyDict :=
  [ ("case_type", PyVal.s case_type),
    ("case_number", PyVal.s case_number),
    ("year", PyVal.s year),
    ("case_title", PyVal.s ("Sample " ++ case_type ++ " Case")),
    ("court_name", PyVal.s "District Court"),
    ("filing_date", PyVal.s "2023-01-15"),
    ("status", PyVal.s "Pending"),
    ("next_hearing", PyVal.s "2023-10-21"),
    ("serial_number", PyVal.s "2"),
    ("is_listed_today", PyVal.b false),
    ("is_listed_tomorrow", PyVal.b true) ]

/-- One row of the cause-list placeholder of
`ECourtsScraper.get_cause_list` (ecourts_scraper.py lines 176-227). -/
structure CauseListEntry where
  serial_number : String
  case_number : String
  case_title : String
  petitioner : String
  respondent : String
  advocate : String
  court_room : String
  time : String
deriving DecidableEq, Repr

/-- `ECourtsScraper.get_cause_list` (ecourts_scraper.py lines 167-229),
try-body: the `date` argument (Python `None` embedded as `none`) and
the `court_code` are used only in a log line; the returned list is the
fixed five-row placeholder. -/
def get_cause_list (court_code : String) (date : Option String) : List CauseListEntry :=
  let _ := court_code
  let _ := date
  [ { serial_number := "1", case_number := "12345/2023",
      case_title := "Sample Case 1", petitioner := "John Doe",
      respondent := "Jane Smith", advocate := "Advocate ABC",
      court_room := "Room 1", time := "10:00 AM" },
    { serial_number := "2", case_number := "67890/2023",
      case_title := "Sample Case 2", petitioner := "Alice Johnson",
      respondent := "Bob Wilson", advocate := "Advocate XYZ",
      court_room := "Room 2", time := "11:00 AM" },
    { serial_number := "3", case_number := "22222/2022",
      case_title := "Ravi Kumar vs. State", petitioner := "Ravi Kumar",
      respondent := "State", advocate := "Adv. Mehta",
      court_room := "Room 3", time := "11:30 AM" },
    { serial_number := "4", case_number := "33333/2021",
      case_title := "Sita Devi vs. Nagar Nigam", petitioner := "Sita Devi",
      respondent := "Nagar Nigam", advocate := "Adv. Rao",
      court_room := "Room 4", time := "12:00 PM" },
    { serial_number := "5", case_number := "44444/2020",
      case_title := "Om Prakash vs. Insurance Co.", petitioner := "Om Prakash",
      respondent := "National Insurance", advocate := "Adv. Khan",
      court_room := "Room 5", time := "12:30 PM" } ]

/-- `ECourtsScraper.get_cause_list` including its `except` handler
(lines 231-233): an exception in the try body (`raises = true`) is
caught and the handler returns the empty list. -/
def get_cause_list_run (raises : Bool) (court_code : String)
    (date : Option String) : List CauseListEntry :=
  if raises then [] else get_cause_list court_code date

/-! ## PDF download path construction -/

/-- A character admitted unchanged by the sanitisation regex
`[^A-Za-z0-9_-]+` of `download_case_pdf` (ecourts_scraper.py line
247): ASCII letter, ASCII digit, underscore or hyphen. -/
def goodChar (c : Char) : Bool :=
  c.isAlpha || c.isDigit || c == '_' || c == '-'

/-- `re.sub(r"[^A-Za-z0-9_-]+", "_", s)` on a character list: each
maximal run of non-admitted characters is replaced by a single
underscore.  `prevBad` records whether the previous character was part
of such a run. -/
def sanitizeAux : Bool → List Char → List Char
  | _, [] => []
  | prevBad, c :: cs =>
    if goodChar c then c :: sanitizeAux false cs
    else if prevBad then sanitizeAux true cs
    else '_' :: sanitizeAux true cs

/-- `re.sub(r"[^A-Za-z0-9_-]+", "_", s)` on a string. -/
def sanitize (s : String) : String := ⟨sanitizeAux false s.data⟩

/-- `os.path.join(a, b)` for a non-absolute second component `b`, as
used by `download_case_pdf` (line 248): `b` when `a` is empty, plain
concatenation when `a` already ends in a slash, and `a ++ "/" ++ b`
otherwise. -/
def osPathJoin (a b : String) : String :=
  if a = "" then b
  else if a.data.getLast? = some '/' then a ++ b
  else a ++ "/" ++ b

/-- `ECourtsScraper.download_case_pdf` (ecourts_scraper.py lines
235-259).  `ioFails = true` embeds an exception in the try body
(`os.makedirs` or the file write failing); the `except` handler
(lines 257-259) then returns the empty string.  Otherwise the returned
path is `os.path.join(output_dir, "case_" + sanitized + ".pdf")`. -/
def download_case_pdf (ioFails : Bool) (case_id : String)
    (output_dir : String) : String :=
  if ioFails then ""
  else osPathJoin output_dir ("case_" ++ sanitize case_id ++ ".pdf")

/-! ## File-system model for the persistence functions -/

/-- File-system state for the save functions: the set of existing
directories, the set of paths whose opening fails with a permission or
disk-space `OSError`, and the files written so far (path, content). -/
structure FS where
  dirs : List String
  denied : List String
  files : List (String × String)
deriving DecidableEq, Repr

/-- `os.path.dirname` on a character list, for the single-separator
relative paths the scraper builds: everything before the last slash,
empty when there is no slash. -/
def dirnameChars : List Char → List Char
  | [] => []
  | c :: cs => if '/' ∈ cs then c :: dirnameChars cs else []

/-- `os.path.dirname` for the relative paths the scraper builds. -/
def dirname (p : String) : String := ⟨dirnameChars p.data⟩

/-- Whether `open(path, "w")` succeeds in state `fs`: the path is not
denied, and its parent directory exists (or the path has no directory
component).  Python's `open` does not create intermediate
directories. -/
def openWrite (fs : FS) (path : String) : Bool :=
  !(fs.denied.contains path) &&
    (dirname path == "" || fs.dirs.contains (dirname path))

/-- `ECourtsScraper.save_results` (ecourts_scraper.py lines 261-276).
`fname` is the `filename` argument (`none` embeds Python `None`, and a
falsy empty string also selects the timestamped default built from
`ts`); `content` is the `json.dump` serialisation of the data.  On a
failed `open` the `except` handler (lines 274-276) returns the empty
string and the state is unchanged: no `WriteError` is raised to the
caller and no directory is created. -/
def save_results (fs : FS) (fname : Option String) (ts : String)
    (content : String) : FS × String :=
  let filename :=
    match fname with
    | none => "ecourts_results_" ++ ts ++ ".json"
    | some f => if f = "" then "ecourts_results_" ++ ts ++ ".json" else f
  if openWrite fs filename then
    ({ fs with files := (filename, content) :: fs.files }, filename)
  else (fs, "")

/-! ## CSV serialisation

`save_cause_list_csv` writes via `csv.DictWriter` with its defaults:
delimiter `,`, quote character `"`, doubled quotes, line terminator
CRLF, and QUOTE_MINIMAL — a field is quoted exactly when it contains
the delimiter, the quote character, or a line-terminator character.
The reader side below models `csv.DictReader` under the declared
eight-column schema, for the spec's round-trip property. -/

/-- QUOTE_MINIMAL test: does this field need quoting? -/
def needsQuote (s : List Char) : Bool :=
  s.any (fun c => c == ',' || c == '"' || c == '\r' || c == '\n')

/-- Double every quote character (the `doublequote=True` escape). -/
def dupQuotes : List Char → List Char
  | [] => []
  | c :: cs => if c == '"' then '"' :: '"' :: dupQuotes cs else c :: dupQuotes cs

/-- Serialise one field under QUOTE_MINIMAL. -/
def escapeField (s : List Char) : List Char :=
  if needsQuote s then '"' :: (dupQuotes s ++ ['"']) else s

/-- Join serialised fields with the `,` delimiter. -/
def joinComma : List (List Char) → List Char
  | [] => []
  | [f] => f
  | f :: rest => f ++ ',' :: joinComma rest

/-- One CSV record: the escaped fields joined by commas, terminated by
CRLF. -/
def lineOf (fields : List (List Char)) : List Char :=
  joinComma (fields.map escapeField) ++ ['\r', '\n']

/-- The fields of a cause-list row, in the dict insertion order of the
source (which `DictWriter(fieldnames=cause_list[0].keys())` uses as
the column order). -/
def entryFields (e : CauseListEntry) : List (List Char) :=
  [ e.serial_number.data, e.case_number.data, e.case_title.data,
    e.petitioner.data, e.respondent.data, e.advocate.data,
    e.court_room.data, e.time.data ]

/-- The header fields written by `writer.writeheader()`. -/
def headerFields : List (List Char) :=
  [ "serial_number".data, "case_number".data, "case_title".data,
    "petitioner".data, "respondent".data, "advocate".data,
    "court_room".data, "time".data ]

/-- The full CSV text `save_cause_list_csv` writes for a cause list:
header record followed by one record per row. -/
def csvChars (rows : List CauseListEntry) : List Char :=
  lineOf headerFields ++ (rows.map (fun e => lineOf (entryFields e))).flatten

/-- The CSV file content as a string. -/
def save_cause_list_csv_content (rows : List CauseListEntry) : String :=
  ⟨csvChars rows⟩

/-- `ECourtsScraper.save_cause_list_csv` (ecourts_scraper.py lines
278-299).  The default filename is computed first, an empty cause list
returns the empty string before any write, and a failed `open` is
caught by the `except` handler (lines 297-299) which returns the empty
string with the state unchanged — no `WriteError`, no directory
creation. -/
def save_cause_list_csv (fs : FS) (rows : List CauseListEntry)
    (fname : Option String) (ts : String) : FS × String :=
  let filename :=
    match fname with
    | none => "cause_list_" ++ ts ++ ".csv"
    | some f => if f = "" then "cause_list_" ++ ts ++ ".csv" else f
  if rows = [] then (fs, "")
  else if openWrite fs filename then
    ({ fs with files := (filename, save_cause_list_csv_content rows) :: fs.files },
     filename)
  else (fs, "")

/-! ### CSV reading (the inverse direction of the round-trip property)

The repository never reads a CSV back; the reader below follows the
spec's round-trip sentence, i.e. standard `csv.DictReader` semantics
over the declared `CauseListEntry` schema. -/

/-- Consume a quoted field after its opening quote: a doubled quote is
an escaped quote character, a lone quote closes the field.  `none` on
an unterminated field. -/
def takeQuoted : List Char → Option (List Char × List Char)
  | [] => none
  | c :: rs =>
    if c = '"' then
      match rs with
      | [] => some ([], [])
      | c2 :: rs2 =>
        if c2 = '"' then (takeQuoted rs2).map (fun p => ('"' :: p.1, p.2))
        else some ([], c2 :: rs2)
    else (takeQuoted rs).map (fun p => (c :: p.1, p.2))

/-- Consume an unquoted field: everything up to the next delimiter or
carriage return. -/
def takeUnquoted : List Char → (List Char × List Char)
  | [] => ([], [])
  | c :: rs =>
    if c = ',' ∨ c = '\r' then ([], c :: rs)
    else ((takeUnquoted rs).1.cons c, (takeUnquoted rs).2)

/-- Parse one field: quoted when it starts with a quote character,
unquoted otherwise. -/
def parseField : List Char → Option (List Char × List Char)
  | [] => some ([], [])
  | c :: rs =>
    if c = '"' then takeQuoted rs else some (takeUnquoted (c :: rs))

/-- Parse one CSV record: fields separated by commas, terminated by
CRLF.  `fuel` bounds the number of fields. -/
def parseRecord : Nat → List Char → Option (List (List Char) × List Char)
  | 0, _ => none
  | fuel + 1, cs =>
    match parseField cs with
    | none => none
    | some (f, rest) =>
      match rest with
      | [] => none
      | c :: rs =>
        if c = ',' then (parseRecord fuel rs).map (fun p => (f :: p.1, p.2))
        else if c = '\r' then
          match rs with
          | [] => none
          | c2 :: rs2 => if c2 = '\n' then some ([f], rs2) else none
        else none

/-- Parse a sequence of CSV records until the input is exhausted.
`fuel` bounds the number of records. -/
def parseRecordList : Nat → List Char → Option (List (List (List Char)))
  | 0, _ => none
  | fuel + 1, cs =>
    if cs.isEmpty then some []
    else
      match parseRecord (cs.length + 1) cs with
      | none => none
      | some (r, rest) => (parseRecordList fuel rest).map (fun l => r :: l)

/-- Rebuild a `CauseListEntry` from the eight parsed fields of one
record, positionally per the declared schema. -/
def fieldsToEntry : List (List Char) → Option CauseListEntry
  | [a, b, c, d, e, f, g, h] =>
    some ⟨⟨a⟩, ⟨b⟩, ⟨c⟩, ⟨d⟩, ⟨e⟩, ⟨f⟩, ⟨g⟩, ⟨h⟩⟩
  | _ => none

/-- Rebuild every data record, failing if any record does not fit the
schema. -/
def buildEntries : List (List (List Char)) → Option (List CauseListEntry)
  | [] => some []
  | r :: rs =>
    match fieldsToEntry r with
    | none => none
    | some e => (buildEntries rs).map (fun l => e :: l)

/-- Read a cause-list CSV back: parse all records, check the header
matches the declared schema, and rebuild each data record into a
`CauseListEntry` in file order. -/
def read_cause_list_csv (content : String) : Option (List CauseListEntry) :=
  match parseRecordList (content.data.length + 1) content.data with
  | none => none
  | some [] => none
  | some (hdr :: rows) =>
    if hdr = headerFields then buildEntries rows else none

/-! ## Web surface (`web_interface.py`)

Each Flask endpoint is embedded as a function from the parsed request
body to a pair of (JSON response object, HTTP status).  `exc = some
msg` embeds an exception escaping the try body (for example
`request.get_json()` raising on a malformed body); the handler then
returns `(\x7b"error": msg\x7d, 500)`. -/

/-- A JSON value, as produced by `jsonify`. -/
inductive Json where
  | str : String → Json
  | boolean : Bool → Json
  | arr : List Json → Json
  | obj : List (String × Json) → Json
deriving Repr

/-- Key lookup in a JSON object body. -/
def jsonGet : List (String × Json) → String → Option Json
  | [], _ => none
  | (k, v) :: rest, key => if key = k then some v else jsonGet rest key

/-- A `PyVal` as a JSON value. -/
def pyValToJson : PyVal → Json
  | PyVal.s v => Json.str v
  | PyVal.b v => Json.boolean v

/-- A `PyDict` as a JSON object field list. -/
def pyDictToJson (d : PyDict) : List (String × Json) :=
  d.map (fun p => (p.1, pyValToJson p.2))

/-- The Python dict a `CauseListEntry` denotes, in source key order. -/
def entryToDict (e : CauseListEntry) : PyDict :=
  [ ("serial_number", PyVal.s e.serial_number),
    ("case_number", PyVal.s e.case_number),
    ("case_title", PyVal.s e.case_title),
    ("petitioner", PyVal.s e.petitioner),
    ("respondent", PyVal.s e.respondent),
    ("advocate", PyVal.s e.advocate),
    ("court_room", PyVal.s e.court_room),
    ("time", PyVal.s e.time) ]

/-- The parsed JSON body of a `/search` request: `data.get(key)` for
each key the endpoint reads (`none` embeds an absent key / `None`). -/
structure SearchRequest where
  search_type : Option String
  cnr : Option String
  case_type : Option String
  case_number : Option String
  year : Option String
deriving Repr

/-- Python truthiness of `data.get(key)` for a string-or-None value:
falsy when absent or the empty string. -/
def truthy : Option String → Bool
  | none => false
  | some s => !(s == "")

/-- The `/search` endpoint `search_case` (web_interface.py lines
21-54).  Error paths return `\x7b"error": ...\x7d` with status 400 or
500 and carry no `success` field; the normal paths return the
`\x7b"success": ..., "data" | "message": ...\x7d` envelope with
status 200. -/
def search_endpoint (req : SearchRequest) (exc : Option String) :
    List (String × Json) × Nat :=
  match exc with
  | some msg => ([("error", Json.str msg)], 500)
  | none =>
    if req.search_type = some "cnr" then
      if truthy req.cnr then
        let result := search_case_by_cnr (req.cnr.getD "")
        if result.isEmpty then
          ([("success", Json.boolean false),
            ("message", Json.str "Case not found")], 200)
        else
          ([("success", Json.boolean true),
            ("data", Json.obj (pyDictToJson result))], 200)
      else ([("error", Json.str "CNR is required")], 400)
    else if req.search_type = some "details" then
      if truthy req.case_type && truthy req.case_number && truthy req.year then
        let result := search_case_by_details (req.case_type.getD "")
          (req.case_number.getD "") (req.year.getD "")
        if result.isEmpty then
          ([("success", Json.boolean false),
            ("message", Json.str "Case not found")], 200)
        else
          ([("success", Json.boolean true),
            ("data", Json.obj (pyDictToJson result))], 200)
      else ([("error", Json.str "All case details are required")], 400)
    else ([("error", Json.str "Invalid search type")], 400)

/-- The `/causelist` endpoint `get_cause_list` (web_interface.py lines
56-78).  `scraperRaises` embeds an exception inside
`ECourtsScraper.get_cause_list` (whose own handler returns `[]`,
which this endpoint then reports as `success: false`); `fs` and `ts`
parameterise the CSV save. -/
def causelist_endpoint (court_code : Option String) (date : Option String)
    (exc : Option String) (scraperRaises : Bool) (fs : FS) (ts : String) :
    List (String × Json) × Nat :=
  match exc with
  | some msg => ([("error", Json.str msg)], 500)
  | none =>
    let cl := get_cause_list_run scraperRaises (court_code.getD "01") date
    if cl.isEmpty then
      ([("success", Json.boolean false),
        ("message", Json.str "No cause list found")], 200)
    else
      ([("success", Json.boolean true),
        ("data", Json.arr (cl.map (fun e => Json.obj (pyDictToJson (entryToDict e))))),
        ("filename", Json.str (save_cause_list_csv fs cl none ts).2)], 200)

/-- The response envelope shape the spec requires of every response:
a boolean `success` field, with `data` present on success and
`message` present on failure. -/
def envelopeOk (body : List (String × Json)) : Prop :=
  ∃ b : Bool, jsonGet body "success" = some (Json.boolean b) ∧
    (if b then ∃ j, jsonGet body "data" = some j
     else ∃ j, jsonGet body "message" = some j)

/-- A probe file-system state: no directories exist, and opening
`results.json` is denied (a permission error). -/
def fsProbe : FS := { dirs := [], denied := ["results.json"], files := [] }

/-! ## Helper lemmas -/

/-- Association-list lookup misses every key that is not among the
stored keys. -/
theorem dictLookup_eq_none : ∀ (l : List (String × CaseRecord)) (key : String),
    key ∉ l.map Prod.fst → dictLookup l key = none
  | [], _, _ => rfl
  | (k, v) :: rest, key, h => by
    have h1 : ¬ key = k := by simp at h; exact h.1
    have h2 : key ∉ rest.map Prod.fst := by simp at h; simpa using h.2
    simp [dictLookup, h1, dictLookup_eq_none rest key h2]

/-- Every character the sanitiser emits is an admitted character. -/
theorem sanitizeAux_good : ∀ (b : Bool) (l : List Char),
    ∀ c ∈ sanitizeAux b l, goodChar c = true := by
  intro b l
  induction l generalizing b with
  | nil => intro c hc; simp [sanitizeAux] at hc
  | cons x xs ih =>
    intro c hc
    by_cases hg : goodChar x
    · rw [sanitizeAux, if_pos hg] at hc
      rcases List.mem_cons.1 hc with h | h
      · exact h ▸ hg
      · exact ih false c h
    · rw [sanitizeAux, if_neg hg] at hc
      cases b with
      | true => simpa using ih true c (by simpa using hc)
      | false =>
        rcases List.mem_cons.1 (by simpa using hc) with h | h
        · subst h; decide
        · exact ih true c h

/-! ### CSV round-trip lemmas -/

/-- Reading a quoted field body undoes quote doubling, as long as the
trailing context does not itself begin with a quote character. -/
theorem takeQuoted_dupQuotes : ∀ (v rest : List Char),
    rest.head? ≠ some '"' →
    takeQuoted (dupQuotes v ++ '"' :: rest) = some (v, rest) := by
  intro v
  induction v with
  | nil =>
    intro rest h
    cases rest with
    | nil => rfl
    | cons c cs =>
      have hc : ¬ c = '"' := fun hh => h (by simp [hh])
      simp [dupQuotes, takeQuoted, hc]
  | cons c cs ih =>
    intro rest h
    by_cases hc : c = '"'
    · subst hc
      simp [dupQuotes, takeQuoted, ih rest h]
    · have hb : (c == '"') = false := beq_eq_false_iff_ne.2 hc
      simp only [dupQuotes, hb, Bool.false_eq_true, if_false, List.cons_append]
      rw [takeQuoted.eq_def]
      simp only [if_neg hc, ih rest h]
      rfl

/-- Reading an unquoted field stops exactly at the delimiter. -/
theorem takeUnquoted_append (d : Char) (rest : List Char)
    (hd : d = ',' ∨ d = '\r') :
    ∀ v : List Char, (∀ c ∈ v, ¬(c = ',' ∨ c = '\r')) →
      takeUnquoted (v ++ d :: rest) = (v, d :: rest) := by
  intro v
  induction v with
  | nil => intro _; simp [takeUnquoted, hd]
  | cons c cs ih =>
    intro hv
    have hc : ¬(c = ',' ∨ c = '\r') := hv c (List.mem_cons_self c cs)
    have ih2 := ih (fun x hx => hv x (List.mem_cons_of_mem c hx))
    simp [takeUnquoted, hc, ih2]

/-- Parsing one escaped field followed by a delimiter recovers the
field. -/
theorem parseField_escapeField (v : List Char) (d : Char) (rest : List Char)
    (hd : d = ',' ∨ d = '\r') :
    parseField (escapeField v ++ d :: rest) = some (v, d :: rest) := by
  have hdq : ¬ d = '"' := by rcases hd with h | h <;> subst h <;> decide
  by_cases hq : needsQuote v
  · have hsh : (('"' :: (dupQuotes v ++ ['"'])) ++ d :: rest)
        = '"' :: (dupQuotes v ++ '"' :: d :: rest) := by simp
    rw [escapeField, if_pos hq, hsh, parseField, if_pos rfl,
      takeQuoted_dupQuotes v (d :: rest) (by simp [hdq])]
  · have hq' : needsQuote v = false := by simpa using hq
    have hns : ∀ c ∈ v, ¬(c = ',' ∨ c = '"' ∨ c = '\r' ∨ c = '\n') := by
      intro c hc hor
      have hpred : (c == ',' || c == '"' || c == '\r' || c == '\n') = true := by
        rcases hor with h | h | h | h <;> subst h <;> decide
      have hT : needsQuote v = true := by
        simp only [needsQuote, List.any_eq_true]
        exact ⟨c, hc, hpred⟩
      rw [hq'] at hT
      exact Bool.false_ne_true hT
    rw [escapeField, if_neg hq]
    cases v with
    | nil =>
      simp only [List.nil_append]
      rw [parseField, if_neg hdq, takeUnquoted, if_pos hd]
    | cons c cs =>
      have hcq : ¬ c = '"' := by
        have := hns c (List.mem_cons_self c cs)
        tauto
      have hv2 : ∀ x ∈ c :: cs, ¬(x = ',' ∨ x = '\r') := by
        intro x hx
        have := hns x hx
        tauto
      rw [List.cons_append, parseField, if_neg hcq, ← List.cons_append,
        takeUnquoted_append d rest hd (c :: cs) hv2]

/-- Parsing one serialised record recovers its fields and leaves the
trailing input untouched. -/
theorem parseRecord_joinComma : ∀ (fields : List (List Char)) (fuel : Nat)
    (rest : List Char), fields ≠ [] → fields.length ≤ fuel →
    parseRecord fuel
        (joinComma (fields.map escapeField) ++ '\r' :: '\n' :: rest)
      = some (fields, rest) := by
  intro fields
  induction fields with
  | nil => intro fuel rest h _; exact absurd rfl h
  | cons f gs ih =>
    intro fuel rest _ hlen
    obtain ⟨n, rfl⟩ : ∃ n, fuel = n + 1 :=
      ⟨fuel - 1, by have := hlen; simp at this ⊢; omega⟩
    cases gs with
    | nil =>
      show parseRecord (n + 1) (escapeField f ++ '\r' :: '\n' :: rest) = _
      rw [parseRecord, parseField_escapeField f '\r' ('\n' :: rest) (Or.inr rfl)]
      simp
    | cons g gs2 =>
      have hj : joinComma ((f :: g :: gs2).map escapeField)
            ++ '\r' :: '\n' :: rest
          = escapeField f
            ++ ',' :: (joinComma ((g :: gs2).map escapeField)
              ++ '\r' :: '\n' :: rest) := by
        simp [joinComma]
      rw [hj, parseRecord,
        parseField_escapeField f ','
          (joinComma ((g :: gs2).map escapeField) ++ '\r' :: '\n' :: rest)
          (Or.inl rfl)]
      have hrec := ih n rest (by simp) (by simpa using Nat.le_of_succ_le_succ hlen)
      simpa using hrec

/-- A record's serialisation has at least one character per field. -/
theorem joinComma_length_ge : ∀ fs : List (List Char),
    fs.length ≤ (joinComma fs).length + 1 := by
  intro fs
  induction fs with
  | nil => simp
  | cons f gs ih =>
    cases gs with
    | nil => simp [joinComma]
    | cons g gs2 =>
      have : joinComma (f :: g :: gs2) = f ++ ',' :: joinComma (g :: gs2) := rfl
      rw [this]
      simp only [List.length_cons, List.length_append] at ih ⊢
      omega

/-- A serialised record line is at least as long as its field count. -/
theorem lineOf_length_ge (fields : List (List Char)) :
    fields.length ≤ (lineOf fields).length := by
  have h1 := joinComma_length_ge (fields.map escapeField)
  simp only [List.length_map] at h1
  simp only [lineOf, List.length_append, List.length_cons]
  omega

/-- A serialised record line is never empty. -/
theorem lineOf_ne_nil (fields : List (List Char)) : lineOf fields ≠ [] := by
  simp [lineOf]

/-- The flattened file is at least as long as its record count. -/
theorem flatten_lineOf_length_ge : ∀ L : List (List (List Char)),
    L.length ≤ ((L.map lineOf).flatten).length := by
  intro L
  induction L with
  | nil => simp
  | cons r rs ih =>
    have h1 : 1 ≤ (lineOf r).length := by
      cases hq : lineOf r with
      | nil => exact absurd hq (lineOf_ne_nil r)
      | cons a l => simp
    simp only [List.map_cons, List.flatten_cons, List.length_append,
      List.length_cons]
    omega

/-- Parsing a concatenation of serialised record lines recovers every
record in order. -/
theorem parseRecordList_flatten : ∀ (rowsF : List (List (List Char)))
    (fuel : Nat), (∀ r ∈ rowsF, r ≠ []) → rowsF.length < fuel →
    parseRecordList fuel ((rowsF.map lineOf).flatten) = some rowsF := by
  intro rowsF
  induction rowsF with
  | nil =>
    intro fuel _ hf
    obtain ⟨n, rfl⟩ : ∃ n, fuel = n + 1 := ⟨fuel - 1, by omega⟩
    simp [parseRecordList]
  | cons r rs ih =>
    intro fuel hne hf
    obtain ⟨n, rfl⟩ : ∃ n, fuel = n + 1 := ⟨fuel - 1, by omega⟩
    have hcs : ((r :: rs).map lineOf).flatten
        = lineOf r ++ (rs.map lineOf).flatten := by simp
    have hra : lineOf r ++ (rs.map lineOf).flatten
        = joinComma (r.map escapeField)
          ++ '\r' :: '\n' :: (rs.map lineOf).flatten := by
      simp [lineOf]
    have hlen : r.length
        ≤ (lineOf r ++ (rs.map lineOf).flatten).length + 1 := by
      have := lineOf_length_ge r
      simp only [List.length_append]
      omega
    have hne2 : (lineOf r ++ (rs.map lineOf).flatten).isEmpty = false := by
      cases hq : lineOf r with
      | nil => exact absurd hq (lineOf_ne_nil r)
      | cons a l => simp [hq]
    rw [hcs, parseRecordList, hne2]
    simp only [Bool.false_eq_true, if_false]
    rw [hra]
    rw [show (joinComma (r.map escapeField)
        ++ '\r' :: '\n' :: (rs.map lineOf).flatten).length + 1
      = (lineOf r ++ (rs.map lineOf).flatten).length + 1 from by rw [← hra]]
    rw [parseRecord_joinComma r _ _ (hne r (List.mem_cons_self r rs)) hlen]
    have hrs := ih n (fun x hx => hne x (List.mem_cons_of_mem r hx))
      (by simpa using Nat.lt_of_succ_lt_succ hf)
    simp [hrs]

/-- Rebuilding from a row's serial fields is the identity. -/
theorem fieldsToEntry_entryFields (e : CauseListEntry) :
    fieldsToEntry (entryFields e) = some e := rfl

/-- Rebuilding every row of a cause list succeeds and is the
identity. -/
theorem buildEntries_map : ∀ rows : List CauseListEntry,
    buildEntries (rows.map entryFields) = some rows := by
  intro rows
  induction rows with
  | nil => rfl
  | cons e es ih => simp [buildEntries, fieldsToEntry_entryFields, ih]

/-- Full CSV round trip for every cause list (including the empty
one): reading back the exact text `save_cause_list_csv` writes yields
the original rows. -/
theorem csv_round_trip_all (rows : List CauseListEntry) :
    read_cause_list_csv (save_cause_list_csv_content rows) = some rows := by
  have hflat : csvChars rows
      = ((headerFields :: rows.map entryFields).map lineOf).flatten := by
    simp only [List.map_cons, List.flatten_cons, List.map_map, csvChars]
    rfl
  have hne : ∀ r ∈ headerFields :: rows.map entryFields, r ≠ [] := by
    intro r hr
    rcases List.mem_cons.1 hr with h | h
    · subst h; simp [headerFields]
    · obtain ⟨e, -, rfl⟩ := List.mem_map.1 h
      simp [entryFields]
  have hlen : (headerFields :: rows.map entryFields).length
      < (csvChars rows).length + 1 := by
    have := flatten_lineOf_length_ge (headerFields :: rows.map entryFields)
    rw [hflat]
    omega
  have hparse : parseRecordList ((csvChars rows).length + 1) (csvChars rows)
      = some (headerFields :: rows.map entryFields) := by
    rw [hflat] at hlen ⊢
    exact parseRecordList_flatten _ _ hne hlen
  have hdata : (save_cause_list_csv_content rows).data = csvChars rows := rfl
  rw [read_cause_list_csv, hdata, hparse]
  simp [buildEntries_map]

/-! ## Claim theorems -/

/-- Claim C4: searching the fixture CNR `DLCT01-123456-2023` returns a
record whose court is the Delhi High Court, whose status is Pending
and whose serial number is 1. -/
theorem claim_C4_cnr_example :
    dictGet (search_case_by_cnr "DLCT01-123456-2023") "court_name"
        = some (PyVal.s "Delhi High Court") ∧
    dictGet (search_case_by_cnr "DLCT01-123456-2023") "status"
        = some (PyVal.s "Pending") ∧
    dictGet (search_case_by_cnr "DLCT01-123456-2023") "serial_number"
        = some (PyVal.s "1") := by
  refine ⟨rfl, rfl, rfl⟩

/-- Claim C3: for every CNR that is a key of the fixture dataset,
`search_case_by_cnr` returns a record whose `cnr` field equals the
input CNR. -/
theorem claim_C3_cnr_field_matches_input (cnr : String) (h : cnr ∈ demoKeys) :
    dictGet (search_case_by_cnr cnr) "cnr" = some (PyVal.s cnr) := by
  simp [demoKeys, demo_cases] at h
  rcases h with h | h | h | h | h <;> subst h <;> rfl

/-- Witness for claim C3 at the first fixture CNR. -/
theorem claim_C3_witness :
    "DLCT01-123456-2023" ∈ demoKeys ∧
      dictGet (search_case_by_cnr "DLCT01-123456-2023") "cnr"
        = some (PyVal.s "DLCT01-123456-2023") :=
  ⟨by decide, claim_C3_cnr_field_matches_input "DLCT01-123456-2023" (by decide)⟩

/-- Claim C2 counterexample: for the absent CNR `UNKNOWN-CNR` the call
returns the empty dict — an empty-but-successful result, not a
distinguished NotFound value (the return type carries no such
value; the same empty dict is what the `except` handler returns). -/
theorem claim_C2_counterexample :
    "UNKNOWN-CNR" ∉ demoKeys ∧
      search_case_by_cnr "UNKNOWN-CNR" = ([] : PyDict) ∧
      search_case_by_cnr_run true "UNKNOWN-CNR" = search_case_by_cnr "UNKNOWN-CNR" := by
  refine ⟨by decide, rfl, rfl⟩

/-- Claim C2 as amended: for every CNR absent from the fixture
dataset, `search_case_by_cnr` returns the empty dict (Python-falsy,
the caller's not-found marker), and this value coincides with the
`except` handler's return. -/
theorem claim_C2_amended_empty_dict (cnr : String) (h : cnr ∉ demoKeys) :
    search_case_by_cnr cnr = ([] : PyDict) ∧
      search_case_by_cnr_run true cnr = search_case_by_cnr cnr := by
  have hl : dictLookup demo_cases cnr = none :=
    dictLookup_eq_none _ _ (by simpa [demoKeys] using h)
  constructor
  · simp [search_case_by_cnr, hl]
  · simp [search_case_by_cnr_run, search_case_by_cnr, hl]

/-- Witness for the amended claim C2 at the CNR `ZZZZ99-000000-1900`. -/
theorem claim_C2_amended_witness :
    "ZZZZ99-000000-1900" ∉ demoKeys ∧
      (search_case_by_cnr "ZZZZ99-000000-1900" = ([] : PyDict) ∧
        search_case_by_cnr_run true "ZZZZ99-000000-1900"
          = search_case_by_cnr "ZZZZ99-000000-1900") :=
  ⟨by decide, claim_C2_amended_empty_dict "ZZZZ99-000000-1900" (by decide)⟩

/-- Claim C1: the fixture's listing flags are mutually exclusive, but
they are hardcoded and cannot be the result of comparing the
next-hearing date with any single as-of date: records with distinct
next-hearing dates (`2025-10-20`, `2025-10-15`, `2025-10-16`) all
carry `is_listed_today = true`, so no as-of date `d` makes
`is_listed_today` equivalent to `next_hearing = d` across the
dataset. -/
theorem claim_C1_flags_not_derived_from_dates :
    (demoRecords.all
        (fun r => !(r.is_listed_today && r.is_listed_tomorrow)) = true) ∧
    ¬ ∃ d : String, demoRecords.all
        (fun r => r.is_listed_today == (r.next_hearing == d)) = true := by
  refine ⟨by decide, ?_⟩
  rintro ⟨d, h⟩
  simp [demoRecords, demo_cases] at h
  obtain ⟨h1, -, h3, -⟩ := h
  exact absurd (h1.trans h3.symm) (by decide)

/-- Claim C5 counterexample: an exception inside
`search_case_by_cnr` is caught and surfaces as the empty dict — the
very value a successful search for an absent CNR returns — and an
exception inside `get_cause_list` surfaces as the empty list; neither
is a typed error. -/
theorem claim_C5_counterexample :
    search_case_by_cnr_run true "DLCT01-123456-2023" = ([] : PyDict) ∧
      search_case_by_cnr_run false "UNKNOWN-CNR-42" = ([] : PyDict) ∧
      get_cause_list_run true "01" none = ([] : List CauseListEntry) := by
  refine ⟨rfl, rfl, rfl⟩

/-- Claim C5 as amended: both `except` handlers swallow the failure
into the same empty success value — `search_case_by_cnr` returns the
empty dict whether the body raised or the CNR merely was not found,
and `get_cause_list` returns the empty list on failure — so callers
cannot distinguish "nothing matched" from "could not determine". -/
theorem claim_C5_amended_failures_swallowed (cnr cc : String)
    (d : Option String) (h : cnr ∉ demoKeys) :
    search_case_by_cnr_run true cnr = ([] : PyDict) ∧
      search_case_by_cnr_run false cnr = ([] : PyDict) ∧
      get_cause_list_run true cc d = ([] : List CauseListEntry) := by
  have hl : dictLookup demo_cases cnr = none :=
    dictLookup_eq_none _ _ (by simpa [demoKeys] using h)
  exact ⟨rfl, by simp [search_case_by_cnr_run, search_case_by_cnr, hl], rfl⟩

/-- Witness for the amended claim C5. -/
theorem claim_C5_amended_witness :
    "NOT-A-CNR" ∉ demoKeys ∧
      (search_case_by_cnr_run true "NOT-A-CNR" = ([] : PyDict) ∧
        search_case_by_cnr_run false "NOT-A-CNR" = ([] : PyDict) ∧
        get_cause_list_run true "02" (some "01/01/2026")
          = ([] : List CauseListEntry)) :=
  ⟨by decide,
   claim_C5_amended_failures_swallowed "NOT-A-CNR" "02" (some "01/01/2026")
     (by decide)⟩

/-- Claim C9: the cause list is the same fixed five-row list for every
court code and every date argument, and its serial numbers are `1`
through `5` in increasing order. -/
theorem claim_C9_cause_list_fixed (court_code : String) (date : Option String) :
    get_cause_list court_code date = get_cause_list "01" none ∧
      (get_cause_list court_code date).map CauseListEntry.serial_number
        = ["1", "2", "3", "4", "5"] ∧
      (get_cause_list court_code date).length = 5 :=
  ⟨rfl, rfl, rfl⟩

/-- Claim C10: every non-empty path returned by `download_case_pdf` is
`output_dir` joined with `case_<s>.pdf` where `<s>` contains only
characters from `[A-Za-z0-9_-]`; in particular the file name part
contains no slash, so the path never escapes `output_dir`. -/
theorem claim_C10_pdf_path_safe (ioFails : Bool) (case_id output_dir : String)
    (h : download_case_pdf ioFails case_id output_dir ≠ "") :
    ∃ s : String,
      download_case_pdf ioFails case_id output_dir
          = osPathJoin output_dir ("case_" ++ s ++ ".pdf") ∧
        ∀ c ∈ s.data, goodChar c = true := by
  cases ioFails with
  | true => exact absurd rfl h
  | false =>
    exact ⟨sanitize case_id, rfl, fun c hc => sanitizeAux_good false _ c hc⟩

/-- Witness for claim C10 at a case id containing a slash. -/
theorem claim_C10_witness :
    download_case_pdf false "12345/2023" "downloads" ≠ "" ∧
      ∃ s : String,
        download_case_pdf false "12345/2023" "downloads"
            = osPathJoin "downloads" ("case_" ++ s ++ ".pdf") ∧
          ∀ c ∈ s.data, goodChar c = true :=
  ⟨by decide, claim_C10_pdf_path_safe false "12345/2023" "downloads" (by decide)⟩

/-- Claim C6 counterexample: with no `out` directory present,
`save_results` on `out/results.json` and `save_cause_list_csv` on
`out/cause_list.csv` both return normally with the empty string and
leave the file system untouched — no `WriteError` is signalled, the
data is dropped, and the missing intermediate directory is not
created; likewise for a permission-denied path. -/
theorem claim_C6_counterexample :
    save_results fsProbe (some "out/results.json") "20250101" "data"
        = (fsProbe, "") ∧
      save_results fsProbe (some "results.json") "20250101" "data"
        = (fsProbe, "") ∧
      save_cause_list_csv fsProbe (get_cause_list "01" none)
          (some "out/cause_list.csv") "20250101"
        = (fsProbe, "") := by
  refine ⟨rfl, rfl, rfl⟩

/-- Claim C6 as amended: neither save function ever creates a
directory, and when the target cannot be opened (missing parent
directory or denied path) each catches the error and returns normally
with the empty string, the state unchanged — no `WriteError` reaches
the caller. -/
theorem claim_C6_amended_write_failures_swallowed (fs : FS)
    (f ts content : String) (rows : List CauseListEntry) :
    (save_results fs (some f) ts content).1.dirs = fs.dirs ∧
      (save_cause_list_csv fs rows (some f) ts).1.dirs = fs.dirs ∧
      (openWrite fs f = false → f ≠ "" →
        save_results fs (some f) ts content = (fs, "") ∧
          save_cause_list_csv fs rows (some f) ts = (fs, "")) := by
  refine ⟨?_, ?_, ?_⟩
  · simp only [save_results]
    split <;> split <;> rfl
  · simp only [save_cause_list_csv]
    split <;> [rfl; skip]
    split <;> split <;> rfl
  · intro hw hf
    constructor
    · simp only [save_results, if_neg hf]
      rw [if_neg]
      simp [hw]
    · simp only [save_cause_list_csv, if_neg hf]
      split
      · rfl
      · rw [if_neg]
        simp [hw]

/-- Witness for the amended claim C6 at a path with a missing parent
directory. -/
theorem claim_C6_amended_witness :
    (save_results fsProbe (some "out/x.json") "t" "d").1.dirs = fsProbe.dirs ∧
      save_results fsProbe (some "out/x.json") "t" "d" = (fsProbe, "") ∧
      save_cause_list_csv fsProbe [] (some "out/x.json") "t" = (fsProbe, "") :=
  ⟨(claim_C6_amended_write_failures_swallowed fsProbe "out/x.json" "t" "d" []).1,
   ((claim_C6_amended_write_failures_swallowed fsProbe "out/x.json" "t" "d" []).2.2
     (by decide) (by decide)).1,
   ((claim_C6_amended_write_failures_swallowed fsProbe "out/x.json" "t" "d" []).2.2
     (by decide) (by decide)).2⟩

/-- Shape of every `/search` response: either a 200 with the
`success`/`data`-or-`message` envelope, or a 400/500 whose body is an
`error` object without a `success` field. -/
theorem search_endpoint_shape (req : SearchRequest) (exc : Option String) :
    ((search_endpoint req exc).2 = 200 ∧ envelopeOk (search_endpoint req exc).1) ∨
      (((search_endpoint req exc).2 = 400 ∨ (search_endpoint req exc).2 = 500) ∧
        ∃ m, jsonGet (search_endpoint req exc).1 "error" = some (Json.str m)) := by
  cases exc with
  | some msg => exact Or.inr ⟨Or.inr rfl, msg, rfl⟩
  | none =>
    dsimp only [search_endpoint]
    split
    · split
      · split
        · exact Or.inl ⟨rfl, false, rfl, Json.str _, rfl⟩
        · exact Or.inl ⟨rfl, true, rfl, Json.obj _, rfl⟩
      · exact Or.inr ⟨Or.inl rfl, _, rfl⟩
    · split
      · split
        · split
          · exact Or.inl ⟨rfl, false, rfl, Json.str _, rfl⟩
          · exact Or.inl ⟨rfl, true, rfl, Json.obj _, rfl⟩
        · exact Or.inr ⟨Or.inl rfl, _, rfl⟩
      · exact Or.inr ⟨Or.inl rfl, _, rfl⟩

/-- Shape of every `/causelist` response: either a 200 with the
envelope, or a 500 `error` object without a `success` field. -/
theorem causelist_endpoint_shape (cc date exc : Option String) (sr : Bool)
    (fs : FS) (ts : String) :
    ((causelist_endpoint cc date exc sr fs ts).2 = 200 ∧
        envelopeOk (causelist_endpoint cc date exc sr fs ts).1) ∨
      ((causelist_endpoint cc date exc sr fs ts).2 = 500 ∧
        ∃ m, jsonGet (causelist_endpoint cc date exc sr fs ts).1 "error"
          = some (Json.str m)) := by
  cases exc with
  | some msg => exact Or.inr ⟨rfl, msg, rfl⟩
  | none =>
    cases sr with
    | true => exact Or.inl ⟨rfl, false, rfl, Json.str _, rfl⟩
    | false => exact Or.inl ⟨rfl, true, rfl, Json.arr _, rfl⟩

/-- Claim C8 counterexample: when an exception escapes the try body
(for example `request.get_json()` raising on a malformed body), both
endpoints answer with status 500 and a body whose only key is
`error` — there is no boolean `success` field, falsifying "for every
request, including internal errors". -/
theorem claim_C8_counterexample :
    jsonGet (search_endpoint ⟨none, none, none, none, none⟩ (some "boom")).1
        "success" = none ∧
      (search_endpoint ⟨none, none, none, none, none⟩ (some "boom")).2 = 500 ∧
      jsonGet (causelist_endpoint none none (some "boom") false fsProbe "t").1
        "success" = none ∧
      (causelist_endpoint none none (some "boom") false fsProbe "t").2 = 500 := by
  refine ⟨rfl, rfl, rfl, rfl⟩

/-- Claim C8 as amended: on requests that pass validation and raise no
exception, both endpoints return status 200 with a
`success`-plus-`data`-or-`message` envelope; validation failures and
internal errors instead return status 400 or 500 with an `error`
object that has no `success` field. -/
theorem claim_C8_amended_envelope (req : SearchRequest)
    (exc1 cc date exc2 : Option String) (sr : Bool) (fs : FS) (ts : String) :
    (((search_endpoint req exc1).2 = 200 ∧ envelopeOk (search_endpoint req exc1).1) ∨
        (((search_endpoint req exc1).2 = 400 ∨ (search_endpoint req exc1).2 = 500) ∧
          ∃ m, jsonGet (search_endpoint req exc1).1 "error" = some (Json.str m))) ∧
      (((causelist_endpoint cc date exc2 sr fs ts).2 = 200 ∧
          envelopeOk (causelist_endpoint cc date exc2 sr fs ts).1) ∨
        ((causelist_endpoint cc date exc2 sr fs ts).2 = 500 ∧
          ∃ m, jsonGet (causelist_endpoint cc date exc2 sr fs ts).1 "error"
            = some (Json.str m))) :=
  ⟨search_endpoint_shape req exc1, causelist_endpoint_shape cc date exc2 sr fs ts⟩

/-- Claim C7: for every non-empty cause list, writing it to CSV with
`save_cause_list_csv` and reading the CSV back yields exactly the
original rows — the same serial-number ordering and the same field
values, for arbitrary field contents (embedded commas, quotes and
line breaks included). -/
theorem claim_C7_csv_round_trip (rows : List CauseListEntry) (h : rows ≠ []) :
    read_cause_list_csv (save_cause_list_csv_content rows) = some rows ∧
      (read_cause_list_csv (save_cause_list_csv_content rows)).map
          (fun l => l.map CauseListEntry.serial_number)
        = some (rows.map CauseListEntry.serial_number) := by
  cases rows with
  | nil => exact absurd rfl h
  | cons e es =>
    refine ⟨csv_round_trip_all (e :: es), ?_⟩
    rw [csv_round_trip_all (e :: es)]
    rfl

/-- Witness for claim C7 at the five-row cause-list fixture. -/
theorem claim_C7_witness :
    get_cause_list "01" none ≠ [] ∧
      (read_cause_list_csv (save_cause_list_csv_content (get_cause_list "01" none))
          = some (get_cause_list "01" none) ∧
        (read_cause_list_csv (save_cause_list_csv_content (get_cause_list "01" none))).map
            (fun l => l.map CauseListEntry.serial_number)
          = some ((get_cause_list "01" none).map CauseListEntry.serial_number)) :=
  ⟨by decide, claim_C7_csv_round_trip (get_cause_list "01" none) (by decide)⟩

end ECourts
